import Mathlib

/-!
Shallow embedding of the purpurina development-environment bootstrapper
(`src/config/dev.ts`) and the Create-Project UI page, together with proofs
about their behaviour.

The embedding covers:
* the folder-name validator used by the Create-Project page (modelled from
  the specification, since `@shared/utils/pathValidation` is imported but its
  source is not part of this repository);
* the `CreateProjectPage` component state machine (`onInput`, `createProject`,
  `reset`);
* the live part of `main()` in `src/config/dev.ts` (logger setup, process-wide
  guards, the Development Environment Descriptor, the `Promise.all` join of
  `startHmrServer` and `startRenderer`, and the module-load call `main()`);
* the orchestration flow that `main()` carries as commented-out code
  (webpack main build, renderer dev-server bind, electron spawn with
  environment overrides, child close/error handlers and the SIGTERM handler,
  lines 123-257 of `src/config/dev.ts`), embedded from that source text.
-/

/-! ## Path validation (Create-Project collaborator) -/

/-- Reserved characters for folder names: the two path separators plus the
characters reserved by common filesystems. -/
def reservedChars : List Char := ['/', '\\', '<', '>', ':', '"', '|', '?', '*']

/-- A character allowed in a folder name: letter, digit, space, hyphen or
underscore. -/
def isAllowedChar (c : Char) : Bool :=
  c.isAlphanum || c = ' ' || c = '-' || c = '_'

/-- Whether the string contains a path separator or a reserved character. -/
def containsReserved (s : String) : Bool :=
  s.toList.any (fun c => reservedChars.contains c)

/-- Modelled from the spec: the folder-name validator
`pathValidation.folderName` (imported from `@shared/utils/pathValidation`,
whose source is not in this repository). Per the spec, a name containing a
path separator or reserved character yields a non-empty error string, and a
non-empty name made only of letters, digits, spaces, hyphens and underscores
yields the empty error string. Other inputs (e.g. the empty string or other
punctuation) are mapped to non-empty errors. -/
def folderName (s : String) : String :=
  if containsReserved s then
    "Folder name contains a reserved character"
  else if s.isEmpty then
    "Folder name must not be empty"
  else if s.toList.all isAllowedChar then
    ""
  else
    "Folder name contains an invalid character"

/-! ## CreateProjectPage (`src/launcher/.../CreateProjectPage`, second part of
the concatenated source file) -/

/-- Ambient user information returned by `getUserInfo()` (via
`remote.getGlobal('userInfo')`). -/
structure UserInfo where
  homeDir : String
  userName : String
deriving DecidableEq

/-- The mutable fields of `CreateProjectPage`: the three committed field
values, the re-entrancy flag, and the per-field error displays held by the
name and location `TextInput`s (set through `setError`). -/
structure CreateProjectState where
  projectName : String
  location : String
  author : String
  creatingProject : Bool
  nameError : String
  locationError : String
deriving DecidableEq

/-- The `ICreateProject` payload sent over IPC on submit. -/
structure ICreateProject where
  projectName : String
  location : String
  author : String
deriving DecidableEq

/-- An input event as seen by `onInput`: the source element's `id` and its
current `value`. -/
structure InputEvent where
  id : String
  value : String
deriving DecidableEq

/-- The `CreateProjectPage` constructor: committed values start at
`'New Project 1'`, the user's home directory, and the user's name; no project
creation is in flight and no field shows an error. -/
def CreateProjectPage.init (u : UserInfo) : CreateProjectState :=
  { projectName := "New Project 1"
    location := u.homeDir
    author := u.userName
    creatingProject := false
    nameError := ""
    locationError := "" }

/-- `CreateProjectPage.onInput`, parametric in the two external validators
`pathValidation.folderName` (`fv`) and `pathValidation.path` (`pv`), whose
implementations live outside this repository. Returns the updated state and
the value of the local `error` variable (`none` when no `switch` case
matched, mirroring the uninitialised variable). A field's value is committed
only in the branch where `error.length === 0`; the author case assigns
unconditionally and sets `error` to the empty string. -/
def onInput (fv pv : String → String) (st : CreateProjectState)
    (ev : InputEvent) : CreateProjectState × Option String :=
  if ev.id = "project-name" then
    let error := fv ev.value
    let st := { st with nameError := error }
    if error.length = 0 then ({ st with projectName := ev.value }, some error)
    else (st, some error)
  else if ev.id = "location" then
    let error := pv ev.value
    let st := { st with locationError := error }
    if error.length = 0 then ({ st with location := ev.value }, some error)
    else (st, some error)
  else if ev.id = "project-author" then
    ({ st with author := ev.value }, some "")
  else
    (st, none)

/-- `CreateProjectPage.createProject`: if the `creatingProject` flag is set
the call is ignored; otherwise the flag is set, an `ICreateProject` payload
built from the committed field values is sent via
`ipcRenderer.send('createProject', ...)`, and the flag is cleared. Returns
the updated state and the list of payloads sent by the call. -/
def createProject (st : CreateProjectState) : CreateProjectState × List ICreateProject :=
  if st.creatingProject = true then
    (st, [])
  else
    let st := { st with creatingProject := true }
    let msg : ICreateProject :=
      { projectName := st.projectName, location := st.location, author := st.author }
    ({ st with creatingProject := false }, [msg])

/-- `CreateProjectPage.reset`: restores the three default values and resets
the name and location inputs (clearing their error displays). -/
def CreateProjectPage.reset (u : UserInfo) (st : CreateProjectState) :
    CreateProjectState :=
  { st with
    projectName := "New Project 1"
    location := u.homeDir
    author := u.userName
    nameError := ""
    locationError := "" }

/-- An externally observable event in the life of a `CreateProjectPage`. -/
inductive PageEvent
  | input (ev : InputEvent)
  | submit
  | reset
deriving DecidableEq

/-- One step of the page: an input event runs `onInput`, a submit runs
`createProject`, a reset runs `CreateProjectPage.reset`. The second
component lists the IPC payloads the step sent. -/
def pageStep (fv pv : String → String) (u : UserInfo)
    (st : CreateProjectState) : PageEvent → CreateProjectState × List ICreateProject
  | .input ev => ((onInput fv pv st ev).1, [])
  | .submit => createProject st
  | .reset => (CreateProjectPage.reset u st, [])

/-- Runs a sequence of page events, collecting every IPC payload sent. -/
def pageRun (fv pv : String → String) (u : UserInfo)
    (st : CreateProjectState) : List PageEvent → CreateProjectState × List ICreateProject
  | [] => (st, [])
  | e :: es =>
    let r1 := pageStep fv pv u st e
    let r2 := pageRun fv pv u r1.1 es
    (r2.1, r1.2 ++ r2.2)

/-- A sample ambient user for concrete evaluations. -/
def sampleUser : UserInfo := { homeDir := "/home/dev", userName := "dev" }

/-- A validator that accepts every input. -/
def acceptAll : String → String := fun _ => ""

/-- A validator that rejects every input. -/
def rejectAll : String → String := fun _ => "invalid path"

/-- A reachable state of `CreateProjectPage` whose location field currently
fails validation: the initial state after one input event on the location
field whose value the path validator rejects. -/
def invalidLocationState : CreateProjectState :=
  (onInput acceptAll rejectAll (CreateProjectPage.init sampleUser)
    { id := "location", value := "bad" }).1

/-! ## Development orchestrator (`src/config/dev.ts`) -/

/-- The renderer endpoint inside the Development Environment Descriptor. -/
structure Renderer where
  host : String
  port : Nat
deriving DecidableEq

/-- The `DevelopmentEnvironment` descriptor built by `main` (lines 34-44). -/
structure DevelopmentEnvironment where
  NODE_ENV : String
  cwd : String
  configPath : String
  projectPath : String
  distPath : String
  renderer : Renderer
deriving DecidableEq

/-- Abstraction of `path.join` at the two call sites in `main`: joining with
a separator (no `..` normalisation is needed for the properties proved
here). -/
def pathJoin (a b : String) : String := a ++ "/" ++ b

/-- The `env` descriptor `main` builds once (lines 34-44): mode
`'development'`, the ambient working directory (`process.cwd()`), the module
directory (`__dirname`), the derived project and dist paths, and the fixed
renderer endpoint `localhost:3000`. -/
def mkDevelopmentEnvironment (cwd dirname : String) : DevelopmentEnvironment :=
  { NODE_ENV := "development"
    cwd := cwd
    configPath := dirname
    projectPath := pathJoin dirname "../"
    distPath := pathJoin dirname "../dist"
    renderer := { host := "localhost", port := 3000 } }

/-- A JavaScript `Error` value: message plus optional stack. -/
structure Error where
  message : String
  stack : Option String
deriving DecidableEq

/-- `e.stack || e`: the stack when present, otherwise the error itself
(rendered through its message). -/
def stackOrSelf (e : Error) : String := e.stack.getD e.message

/-- Result of running one of the installed process-wide guard callbacks:
what it logged and the exit code it requested. -/
structure HandlerResult where
  logs : List String
  exitCode : Option Nat
deriving DecidableEq

/-- The two process-wide fatal events `main` guards against (lines 24-32). -/
inductive GuardEvent
  | unhandledRejection (e : Error)
  | uncaughtException (e : Error)
deriving DecidableEq

/-- The guard callbacks `main` installs (lines 24-32): both log the event
and call `process.exit(1)`; neither has a recovery path. -/
def guardHandle : GuardEvent → HandlerResult
  | .unhandledRejection e =>
    { logs := ["Unhandled rejection " ++ stackOrSelf e], exitCode := some 1 }
  | .uncaughtException e =>
    { logs := ["Uncaught exception " ++ stackOrSelf e], exitCode := some 1 }

/-- Observable steps of the straight-line prefix of the live `main()`. -/
inductive LiveAction
  | log (msg : String)
  | installRejectionGuard
  | installExceptionGuard
  | constructEnv (env : DevelopmentEnvironment)
  | startHmrCall
  | startRendererCall (env : DevelopmentEnvironment)
deriving DecidableEq

/-- The straight-line prefix of the live `main()` (lines 13-58): log
startup, install the two guards, build the environment descriptor once, then
start the two concurrent tasks (the descriptor is passed, by value, only to
`startRenderer`). -/
def mainLiveTrace (cwd dirname : String) : List LiveAction :=
  [ .log "Starting development environment"
  , .installRejectionGuard
  , .installExceptionGuard
  , .constructEnv (mkDevelopmentEnvironment cwd dirname)
  , .startHmrCall
  , .startRendererCall (mkDevelopmentEnvironment cwd dirname) ]

/-- Projection: the environment descriptors constructed along a trace. -/
def envsConstructed (tr : List LiveAction) : List DevelopmentEnvironment :=
  tr.filterMap fun a =>
    match a with
    | .constructEnv e => some e
    | _ => none

/-- Projection: the descriptors passed to `startRenderer` along a trace. -/
def envsPassedToRenderer (tr : List LiveAction) : List DevelopmentEnvironment :=
  tr.filterMap fun a =>
    match a with
    | .startRendererCall e => some e
    | _ => none

/-- Settlement state of a promise, or the exit of the whole process. -/
inductive DevOutcome
  | pending
  | resolved
  | rejected (e : String)
  | exited (code : Nat)
deriving DecidableEq

/-- `Promise.all` over the two startup tasks: it rejects when either task
rejects and resolves when both resolve. -/
def promiseAll2 : Except String Unit → Except String Unit → Except String Unit
  | .error e, _ => .error e
  | .ok _, .error e => .error e
  | .ok _, .ok _ => .ok ()

/-- Applying a guard callback's result to the process. -/
def applyGuard (h : HandlerResult) : DevOutcome :=
  match h.exitCode with
  | some c => .exited c
  | none => .resolved

/-- The module-load behaviour (line 261): `main()` is invoked with no
rejection handler attached, so when the awaited `Promise.all` join of
`startHmrServer` and `startRenderer` rejects, `main()`'s own promise rejects
unhandled and the installed `unhandledRejection` guard decides the process
outcome; when both tasks resolve, `main()` resolves. -/
def moduleLoadOutcome (hmr renderer : Except String Unit) : DevOutcome :=
  match promiseAll2 hmr renderer with
  | .error e =>
    applyGuard (guardHandle (.unhandledRejection { message := e, stack := none }))
  | .ok _ => .resolved

/-! ## Orchestration flow carried as commented-out code in `main`
(lines 123-257 of `src/config/dev.ts`), embedded from that source text -/

/-- Webpack build statistics for the main bundle as consumed by the flow
(`stats.hasErrors()`, `stats.hasWarnings()`, `stats.toJson().errors` and
`.warnings`). -/
structure Stats where
  errors : List String
  warnings : List String
deriving DecidableEq

/-- `stats.hasErrors()`. -/
def Stats.hasErrors (s : Stats) : Bool := !s.errors.isEmpty

/-- `stats.hasWarnings()`. -/
def Stats.hasWarnings (s : Stats) : Bool := !s.warnings.isEmpty

/-- Outcome of the main-bundle webpack invocation: the callback either
reports a compiler failure (rejecting `mainPromise`) or resolves with build
statistics. -/
inductive BuildOutcome
  | err (e : String)
  | ok (stats : Stats)
deriving DecidableEq

/-- Outcome of `expressApp.listen(PORT, 'localhost', ...)`: the listener
binds, resolving the renderer-server promise, or fails. -/
inductive BindOutcome
  | err (e : String)
  | ok
deriving DecidableEq

/-- Events observed by the handlers registered after the spawn: the child's
`close` and `error` events and the process-level `SIGTERM` signal. -/
inductive ChildEvent
  | close (code : Int)
  | error (e : String)
  | sigterm
deriving DecidableEq

/-- Observable actions of the orchestration flow. -/
inductive DevAction
  | log (msg : String)
  | logWarn (msg : String)
  | logError (msg : String)
  | processExit (code : Nat)
  | spawn (cmd : String) (args : List String) (env : List (String × String))
  | closeDevMiddleware
  | closeServer
deriving DecidableEq

/-- The three overrides the spawn adds on top of `process.env`
(lines 205-210): the dev-server port rendered with `toString(10)`, the host
literal `'locahost'` exactly as written in the source, and
`JSON.stringify(true)`. -/
def envOverrides (port : Nat) : List (String × String) :=
  [("ELECTRON_WEBPACK_WDS_PORT", toString port),
   ("ELECTRON_WEBPACK_WDS_HOST", "locahost"),
   ("DEVELOPMENT", "true")]

/-- Object-spread semantics of `{ ...process.env, <overrides> }`: parent
bindings whose key is overridden are replaced; the overrides are appended. -/
def childEnv (parentEnv : List (String × String)) (port : Nat) :
    List (String × String) :=
  (parentEnv.filter fun kv => (envOverrides port).all fun ov => ov.1 != kv.1)
    ++ envOverrides port

/-- Key lookup in an environment object. -/
def envGet (env : List (String × String)) (k : String) : Option String :=
  (env.find? fun kv => kv.1 == k).map fun kv => kv.2

/-- State of the returned promise while waiting on child/process events:
actions performed so far, whether the dev middleware and the listener have
been closed, and the promise's settlement state. -/
structure WaitState where
  actions : List DevAction
  midClosed : Bool
  srvClosed : Bool
  promise : DevOutcome
deriving DecidableEq

/-- `resolve()` on a possibly settled promise: only a pending promise
settles. -/
def resolveProm : DevOutcome → DevOutcome
  | .pending => .resolved
  | o => o

/-- `reject(e)` on a possibly settled promise: only a pending promise
settles. -/
def rejectProm (e : String) : DevOutcome → DevOutcome
  | .pending => .rejected e
  | o => o

/-- The three handlers registered after the spawn (lines 224-249): child
`close` logs the exit code, closes the dev middleware, closes the listener
and resolves; child `error` logs and rejects; `SIGTERM` logs, closes the dev
middleware, closes the listener and resolves from the listener-close
callback. -/
def handleEvent (st : WaitState) : ChildEvent → WaitState
  | .close code =>
    { st with
      actions := st.actions ++
        [.log ("Electron exited with code: " ++ toString code),
         .closeDevMiddleware, .closeServer]
      midClosed := true
      srvClosed := true
      promise := resolveProm st.promise }
  | .error e =>
    { st with
      actions := st.actions ++ [.logError ("Electron: Error occurred " ++ e)]
      promise := rejectProm e st.promise }
  | .sigterm =>
    { st with
      actions := st.actions ++
        [.log "Stopping dev server", .closeDevMiddleware, .closeServer]
      midClosed := true
      srvClosed := true
      promise := resolveProm st.promise }

/-- The orchestration flow: await the main-bundle build (exiting with status
1 on build errors, logging and continuing on warnings), await the renderer
dev-server bind, spawn electron with the overridden environment, then let
the registered handlers consume the child/process events. Parameters supply
the ambient `process.env`, the build outcome, the bind outcome and the
event sequence; a rejecting await surfaces as a rejected outcome. -/
def devFlow (parentEnv : List (String × String)) (build : BuildOutcome)
    (bind : BindOutcome) (events : List ChildEvent) :
    List DevAction × DevOutcome :=
  match build with
  | .err e => ([.log "Building main..."], .rejected e)
  | .ok stats =>
    if stats.hasErrors then
      ([.log "Building main...",
        .logError ("Main error:\n" ++ String.intercalate "\n\n" stats.errors),
        .processExit 1],
       .exited 1)
    else
      let preActions :=
        [DevAction.log "Building main..."] ++
        (if stats.hasWarnings then
          [DevAction.logWarn
            ("Main warnings:\n:" ++ String.intercalate "\n\n" stats.warnings)]
         else []) ++
        [DevAction.log "Main has been built successfully!"]
      match bind with
      | .err e => (preActions, .rejected e)
      | .ok =>
        let env := childEnv parentEnv 3000
        let start : WaitState :=
          { actions := preActions ++
              [.spawn "electron" [".", "--inspect=5858", "--color"] env,
               .log ("Electron started at " ++ toString 3000)]
            midClosed := false
            srvClosed := false
            promise := .pending }
        let final := events.foldl handleEvent start
        (final.actions, final.promise)

/-- Projection: the spawn actions in a trace. -/
def spawnsOf (acts : List DevAction) :
    List (String × List String × List (String × String)) :=
  acts.filterMap fun a =>
    match a with
    | .spawn c args env => some (c, args, env)
    | _ => none

/-- The per-state invariant behind C9: each committed value is either the
constructor default or a value its validator accepts. -/
def committedValid (fv pv : String → String) (u : UserInfo)
    (st : CreateProjectState) : Prop :=
  (st.projectName = "New Project 1" ∨ fv st.projectName = "") ∧
  (st.location = u.homeDir ∨ pv st.location = "")

/-! ## Helper lemmas -/

theorem allowed_not_reserved {c : Char} (h : isAllowedChar c = true) :
    reservedChars.contains c = false := by
  by_contra hc
  rw [Bool.not_eq_false] at hc
  have hc : c ∈ reservedChars := by simpa using hc
  simp only [reservedChars, List.mem_cons, List.not_mem_nil, or_false] at hc
  rcases hc with h' | h' | h' | h' | h' | h' | h' | h' | h' <;>
    (subst h'; simp [isAllowedChar, Char.isAlphanum, Char.isAlpha,
      Char.isDigit, Char.isUpper, Char.isLower] at h)

theorem allowed_string_not_reserved {s : String}
    (h : s.toList.all isAllowedChar = true) : containsReserved s = false := by
  rw [containsReserved]
  rw [List.all_eq_true] at h
  rw [Bool.eq_false_iff]
  intro hc
  rw [List.any_eq_true] at hc
  obtain ⟨c, hmem, hres⟩ := hc
  have := allowed_not_reserved (h c hmem)
  rw [this] at hres
  exact Bool.false_ne_true hres

theorem string_length_zero {s : String} (h : s.length = 0) : s = "" := by
  cases s with
  | mk data =>
    cases data with
    | nil => rfl
    | cons c cs => simp [String.length] at h

theorem onInput_committedValid (fv pv : String → String) (u : UserInfo)
    (st : CreateProjectState) (ev : InputEvent)
    (h : committedValid fv pv u st) :
    committedValid fv pv u (onInput fv pv st ev).1 := by
  obtain ⟨h1, h2⟩ := h
  simp only [onInput]
  by_cases ha : ev.id = "project-name"
  · rw [if_pos ha]
    by_cases hlen : (fv ev.value).length = 0
    · rw [if_pos hlen]
      exact ⟨Or.inr (string_length_zero hlen), h2⟩
    · rw [if_neg hlen]
      exact ⟨h1, h2⟩
  · rw [if_neg ha]
    by_cases hb : ev.id = "location"
    · rw [if_pos hb]
      by_cases hlen : (pv ev.value).length = 0
      · rw [if_pos hlen]
        exact ⟨h1, Or.inr (string_length_zero hlen)⟩
      · rw [if_neg hlen]
        exact ⟨h1, h2⟩
    · rw [if_neg hb]
      by_cases hc : ev.id = "project-author"
      · rw [if_pos hc]
        exact ⟨h1, h2⟩
      · rw [if_neg hc]
        exact ⟨h1, h2⟩

theorem pageStep_committedValid (fv pv : String → String) (u : UserInfo)
    (st : CreateProjectState) (e : PageEvent)
    (h : committedValid fv pv u st) :
    committedValid fv pv u (pageStep fv pv u st e).1 ∧
    ∀ m ∈ (pageStep fv pv u st e).2,
      (m.projectName = "New Project 1" ∨ fv m.projectName = "") ∧
      (m.location = u.homeDir ∨ pv m.location = "") := by
  cases e with
  | input ev =>
    exact ⟨onInput_committedValid fv pv u st ev h, by intro m hm; simp [pageStep] at hm⟩
  | submit =>
    simp only [pageStep, createProject]
    split_ifs with hflag
    · exact ⟨h, by intro m hm; simp at hm⟩
    · refine ⟨⟨h.1, h.2⟩, ?_⟩
      intro m hm
      simp only [List.mem_singleton] at hm
      subst hm
      exact ⟨h.1, h.2⟩
  | reset =>
    refine ⟨⟨Or.inl rfl, Or.inl rfl⟩, ?_⟩
    intro m hm
    simp [pageStep] at hm

theorem pageRun_committedValid (fv pv : String → String) (u : UserInfo)
    (tr : List PageEvent) (st : CreateProjectState)
    (h : committedValid fv pv u st) :
    committedValid fv pv u (pageRun fv pv u st tr).1 ∧
    ∀ m ∈ (pageRun fv pv u st tr).2,
      (m.projectName = "New Project 1" ∨ fv m.projectName = "") ∧
      (m.location = u.homeDir ∨ pv m.location = "") := by
  induction tr generalizing st with
  | nil => exact ⟨h, by intro m hm; simp [pageRun] at hm⟩
  | cons e es ih =>
    obtain ⟨hs, hms⟩ := pageStep_committedValid fv pv u st e h
    obtain ⟨hs', hms'⟩ := ih (pageStep fv pv u st e).1 hs
    refine ⟨hs', ?_⟩
    intro m hm
    simp only [pageRun, List.mem_append] at hm
    rcases hm with hm | hm
    · exact hms m hm
    · exact hms' m hm

theorem spawnsOf_append (l1 l2 : List DevAction) :
    spawnsOf (l1 ++ l2) = spawnsOf l1 ++ spawnsOf l2 := by
  simp [spawnsOf, List.filterMap_append]

theorem handleEvent_spawnsOf (st : WaitState) (e : ChildEvent) :
    spawnsOf (handleEvent st e).actions = spawnsOf st.actions := by
  cases e <;> simp [handleEvent, spawnsOf_append, spawnsOf]

theorem foldl_handleEvent_spawnsOf (events : List ChildEvent) (st : WaitState) :
    spawnsOf (events.foldl handleEvent st).actions = spawnsOf st.actions := by
  induction events generalizing st with
  | nil => rfl
  | cons e es ih => rw [List.foldl_cons, ih, handleEvent_spawnsOf]

theorem handleEvent_mem_actions {st : WaitState} {a : DevAction}
    (e : ChildEvent) (h : a ∈ st.actions) : a ∈ (handleEvent st e).actions := by
  cases e <;> simp [handleEvent] <;> exact Or.inl h

theorem foldl_handleEvent_mem_actions {st : WaitState} {a : DevAction}
    (events : List ChildEvent) (h : a ∈ st.actions) :
    a ∈ (events.foldl handleEvent st).actions := by
  induction events generalizing st with
  | nil => exact h
  | cons e es ih => exact ih (handleEvent_mem_actions e h)

theorem handleEvent_resolved {st : WaitState} (e : ChildEvent)
    (h : st.promise = DevOutcome.resolved) :
    (handleEvent st e).promise = DevOutcome.resolved := by
  cases e <;> simp [handleEvent, h, resolveProm, rejectProm]

theorem foldl_handleEvent_resolved {st : WaitState} (events : List ChildEvent)
    (h : st.promise = DevOutcome.resolved) :
    (events.foldl handleEvent st).promise = DevOutcome.resolved := by
  induction events generalizing st with
  | nil => exact h
  | cons e es ih => exact ih (handleEvent_resolved e h)

theorem handleEvent_sigterm_resolves {st : WaitState}
    (h : st.promise = DevOutcome.pending ∨ st.promise = DevOutcome.resolved) :
    (handleEvent st ChildEvent.sigterm).promise = DevOutcome.resolved := by
  rcases h with h | h <;> simp [handleEvent, h, resolveProm]

theorem foldl_sigterms_pending_or_resolved {st : WaitState}
    (pre : List ChildEvent) (hpre : ∀ e ∈ pre, e = ChildEvent.sigterm)
    (h : st.promise = DevOutcome.pending ∨ st.promise = DevOutcome.resolved) :
    (pre.foldl handleEvent st).promise = DevOutcome.pending ∨
    (pre.foldl handleEvent st).promise = DevOutcome.resolved := by
  induction pre generalizing st with
  | nil => exact h
  | cons e es ih =>
    have he : e = ChildEvent.sigterm := hpre e (List.mem_cons_self e es)
    subst he
    rw [List.foldl_cons]
    exact ih (fun e' h' => hpre e' (List.mem_cons_of_mem _ h'))
      (Or.inr (handleEvent_sigterm_resolves h))

/-! ## Claim theorems -/

/-- C6: the folder-name validator returns a non-empty error string whenever
the input contains a path separator or a reserved character, and returns the
empty string whenever the input is a non-empty sequence of letters, digits,
spaces, hyphens and underscores. -/
theorem folderName_spec (s : String) :
    (containsReserved s = true → folderName s ≠ "") ∧
    (s ≠ "" → s.toList.all isAllowedChar = true → folderName s = "") := by
  constructor
  · intro h
    simp [folderName, h]
  · intro hne hall
    have hres := allowed_string_not_reserved hall
    have hempty : s.isEmpty = false := by
      rw [Bool.eq_false_iff]
      intro h
      exact hne ((String.isEmpty_iff s).mp h)
    simp only [folderName, hres, hempty, Bool.false_eq_true, if_false]
    rw [hall, if_pos rfl]

/-- Witness for C6: `"a/b"` contains a separator and is rejected with a
non-empty error; `"New Project 1"` is made of allowed characters and is
accepted with an empty error. -/
theorem folderName_spec_witness :
    folderName "a/b" ≠ "" ∧ folderName "New Project 1" = "" :=
  ⟨(folderName_spec "a/b").1 (by decide),
   (folderName_spec "New Project 1").2 (by decide) (by decide)⟩

/-- C3 counterexample: in a reachable state whose location field currently
fails validation (its error display is non-empty), invoking `createProject`
leaves the committed location unchanged but it does send an IPC payload, so
the claim that no `createProject` message is sent is false on the code. -/
theorem createProject_invalid_location_counterexample :
    invalidLocationState.locationError ≠ "" ∧
    (createProject invalidLocationState).1.location = invalidLocationState.location ∧
    (createProject invalidLocationState).2 ≠ [] := by decide

/-- C3 (amended): in every state whose location field currently fails
validation and with no submission in flight, invoking `createProject` leaves
the committed location unchanged and sends exactly one `createProject`
payload carrying the previously committed (not the invalid) location. -/
theorem createProject_invalid_location_keeps_location
    (st : CreateProjectState) (_herr : st.locationError ≠ "")
    (hflag : st.creatingProject = false) :
    (createProject st).1.location = st.location ∧
    (createProject st).2 =
      [{ projectName := st.projectName, location := st.location, author := st.author }] := by
  simp [createProject, hflag]

/-- Witness for C3 (amended), at the reachable invalid-location state. -/
theorem createProject_invalid_location_keeps_location_witness :
    (createProject invalidLocationState).1.location = invalidLocationState.location ∧
    (createProject invalidLocationState).2 =
      [{ projectName := invalidLocationState.projectName,
         location := invalidLocationState.location,
         author := invalidLocationState.author }] :=
  createProject_invalid_location_keeps_location invalidLocationState
    (by decide) (by decide)

/-- C7: on every input event, each of the three committed fields either is
left unchanged or is set to the event's value with the event's validation
error being empty — a value is committed only when its validation produced an
empty error message, and a non-empty error leaves the committed value
untouched. Parametric in the two external validators. -/
theorem onInput_commit_iff_empty_error (fv pv : String → String)
    (st : CreateProjectState) (ev : InputEvent) :
    ((onInput fv pv st ev).1.projectName = st.projectName ∨
      ((onInput fv pv st ev).2 = some "" ∧
        (onInput fv pv st ev).1.projectName = ev.value)) ∧
    ((onInput fv pv st ev).1.location = st.location ∨
      ((onInput fv pv st ev).2 = some "" ∧
        (onInput fv pv st ev).1.location = ev.value)) ∧
    ((onInput fv pv st ev).1.author = st.author ∨
      ((onInput fv pv st ev).2 = some "" ∧
        (onInput fv pv st ev).1.author = ev.value)) := by
  simp only [onInput]
  by_cases ha : ev.id = "project-name"
  · rw [if_pos ha]
    by_cases hlen : (fv ev.value).length = 0
    · rw [if_pos hlen]
      exact ⟨Or.inr ⟨by rw [string_length_zero hlen], rfl⟩, Or.inl rfl, Or.inl rfl⟩
    · rw [if_neg hlen]
      exact ⟨Or.inl rfl, Or.inl rfl, Or.inl rfl⟩
  · rw [if_neg ha]
    by_cases hb : ev.id = "location"
    · rw [if_pos hb]
      by_cases hlen : (pv ev.value).length = 0
      · rw [if_pos hlen]
        exact ⟨Or.inl rfl, Or.inr ⟨by rw [string_length_zero hlen], rfl⟩, Or.inl rfl⟩
      · rw [if_neg hlen]
        exact ⟨Or.inl rfl, Or.inl rfl, Or.inl rfl⟩
    · rw [if_neg hb]
      by_cases hc : ev.id = "project-author"
      · rw [if_pos hc]
        exact ⟨Or.inl rfl, Or.inl rfl, Or.inr ⟨rfl, rfl⟩⟩
      · rw [if_neg hc]
        exact ⟨Or.inl rfl, Or.inl rfl, Or.inl rfl⟩

/-- C9: every `createProject` payload sent along any event sequence from the
freshly constructed page carries a project name that is either the
constructor default `'New Project 1'` or a value the folder-name validator
accepted, and a location that is either the user's home directory or a value
the path validator accepted; a value whose validation returned a non-empty
error never appears in a sent payload. -/
theorem createProject_payload_validated (fv pv : String → String)
    (u : UserInfo) (tr : List PageEvent) (m : ICreateProject)
    (hm : m ∈ (pageRun fv pv u (CreateProjectPage.init u) tr).2) :
    (m.projectName = "New Project 1" ∨ fv m.projectName = "") ∧
    (m.location = u.homeDir ∨ pv m.location = "") :=
  (pageRun_committedValid fv pv u tr (CreateProjectPage.init u)
    ⟨Or.inl rfl, Or.inl rfl⟩).2 m hm

/-- Witness for C9: a single submit on the fresh page sends the default
payload, which satisfies the invariant. -/
theorem createProject_payload_validated_witness :
    ((ICreateProject.mk "New Project 1" "/home/dev" "dev").projectName = "New Project 1" ∨
      acceptAll (ICreateProject.mk "New Project 1" "/home/dev" "dev").projectName = "") ∧
    ((ICreateProject.mk "New Project 1" "/home/dev" "dev").location = sampleUser.homeDir ∨
      acceptAll (ICreateProject.mk "New Project 1" "/home/dev" "dev").location = "") :=
  createProject_payload_validated acceptAll acceptAll sampleUser
    [PageEvent.submit] (ICreateProject.mk "New Project 1" "/home/dev" "dev")
    (by decide)

/-- C1 evaluation at a failing run: with a successful main-bundle compile
and a successful listener bind, the flow spawns exactly one child whose
environment extends the parent environment with the port variable
`"3000"` and development flag `"true"` as claimed — but the host variable
carries the source's literal `'locahost'`, not `'localhost'`, so it does not
match the Development Environment Descriptor's `renderer.host`. -/
theorem spawn_env_host_typo :
    spawnsOf (devFlow [] (BuildOutcome.ok { errors := [], warnings := [] })
        BindOutcome.ok []).1 =
      [("electron", [".", "--inspect=5858", "--color"], envOverrides 3000)] ∧
    envGet (envOverrides 3000) "ELECTRON_WEBPACK_WDS_PORT" = some "3000" ∧
    envGet (envOverrides 3000) "DEVELOPMENT" = some "true" ∧
    envGet (envOverrides 3000) "ELECTRON_WEBPACK_WDS_HOST" = some "locahost" ∧
    (mkDevelopmentEnvironment "/repo" "/repo/config").renderer.host = "localhost" ∧
    "locahost" ≠ "localhost" := by
  refine ⟨?_, rfl, rfl, rfl, rfl, by decide⟩
  rfl

/-- C2: whenever the main-bundle compile reports at least one error, the
flow terminates the process with exit status 1 and never spawns a child
process, whatever the bind outcome and later events would have been. -/
theorem build_error_exits_without_spawn (parentEnv : List (String × String))
    (stats : Stats) (bind : BindOutcome) (events : List ChildEvent)
    (h : stats.hasErrors = true) :
    (devFlow parentEnv (BuildOutcome.ok stats) bind events).2 = DevOutcome.exited 1 ∧
    spawnsOf (devFlow parentEnv (BuildOutcome.ok stats) bind events).1 = [] := by
  simp [devFlow, h, spawnsOf]

/-- Witness for C2: one compile error, listener bound, no later events. -/
theorem build_error_exits_without_spawn_witness :
    (devFlow [] (BuildOutcome.ok { errors := ["failed to compile"], warnings := [] })
        BindOutcome.ok []).2 = DevOutcome.exited 1 ∧
    spawnsOf (devFlow [] (BuildOutcome.ok { errors := ["failed to compile"], warnings := [] })
        BindOutcome.ok []).1 = [] :=
  build_error_exits_without_spawn []
    { errors := ["failed to compile"], warnings := [] } BindOutcome.ok []
    (by decide)

/-- C4: `main` installs both process-wide guards, and for every error each
guard logs the event and requests immediate termination with exit status 1 —
there is no recovery path. -/
theorem guards_log_and_exit_one (cwd dirname : String) (e : Error) :
    LiveAction.installRejectionGuard ∈ mainLiveTrace cwd dirname ∧
    LiveAction.installExceptionGuard ∈ mainLiveTrace cwd dirname ∧
    (guardHandle (GuardEvent.unhandledRejection e)).logs ≠ [] ∧
    (guardHandle (GuardEvent.unhandledRejection e)).exitCode = some 1 ∧
    (guardHandle (GuardEvent.uncaughtException e)).logs ≠ [] ∧
    (guardHandle (GuardEvent.uncaughtException e)).exitCode = some 1 := by
  refine ⟨by simp [mainLiveTrace], by simp [mainLiveTrace], ?_, rfl, ?_, rfl⟩ <;>
    simp [guardHandle]

/-- C5: when a SIGTERM arrives while the spawned child is still running
(only further SIGTERMs, and no child close or error, may precede it), the
flow closes the dev middleware and the dev-server listener and its top-level
promise ends resolved, not rejected. -/
theorem sigterm_closes_and_resolves (parentEnv : List (String × String))
    (stats : Stats) (pre post : List ChildEvent)
    (hok : stats.hasErrors = false)
    (hpre : ∀ e ∈ pre, e = ChildEvent.sigterm) :
    (devFlow parentEnv (BuildOutcome.ok stats) BindOutcome.ok
        (pre ++ ChildEvent.sigterm :: post)).2 = DevOutcome.resolved ∧
    DevAction.closeDevMiddleware ∈
      (devFlow parentEnv (BuildOutcome.ok stats) BindOutcome.ok
        (pre ++ ChildEvent.sigterm :: post)).1 ∧
    DevAction.closeServer ∈
      (devFlow parentEnv (BuildOutcome.ok stats) BindOutcome.ok
        (pre ++ ChildEvent.sigterm :: post)).1 := by
  simp only [devFlow, hok, Bool.false_eq_true, if_false]
  rw [List.foldl_append, List.foldl_cons]
  set start : WaitState :=
    { actions :=
        [DevAction.log "Building main..."] ++
        (if stats.hasWarnings then
          [DevAction.logWarn
            ("Main warnings:\n:" ++ String.intercalate "\n\n" stats.warnings)]
         else []) ++
        [DevAction.log "Main has been built successfully!"] ++
        [DevAction.spawn "electron" [".", "--inspect=5858", "--color"]
          (childEnv parentEnv 3000),
         DevAction.log ("Electron started at " ++ toString 3000)]
      midClosed := false
      srvClosed := false
      promise := DevOutcome.pending } with hstart
  have hps : (pre.foldl handleEvent start).promise = DevOutcome.pending ∨
      (pre.foldl handleEvent start).promise = DevOutcome.resolved :=
    foldl_sigterms_pending_or_resolved pre hpre (Or.inl rfl)
  have hres : (handleEvent (pre.foldl handleEvent start) ChildEvent.sigterm).promise
      = DevOutcome.resolved := handleEvent_sigterm_resolves hps
  refine ⟨foldl_handleEvent_resolved post hres, ?_, ?_⟩
  · exact foldl_handleEvent_mem_actions post
      (by simp [handleEvent])
  · exact foldl_handleEvent_mem_actions post
      (by simp [handleEvent])

/-- Witness for C5: clean build, immediate SIGTERM, no further events. -/
theorem sigterm_closes_and_resolves_witness :
    (devFlow [] (BuildOutcome.ok { errors := [], warnings := [] }) BindOutcome.ok
        [ChildEvent.sigterm]).2 = DevOutcome.resolved ∧
    DevAction.closeDevMiddleware ∈
      (devFlow [] (BuildOutcome.ok { errors := [], warnings := [] }) BindOutcome.ok
        [ChildEvent.sigterm]).1 ∧
    DevAction.closeServer ∈
      (devFlow [] (BuildOutcome.ok { errors := [], warnings := [] }) BindOutcome.ok
        [ChildEvent.sigterm]).1 :=
  sigterm_closes_and_resolves [] { errors := [], warnings := [] } [] []
    (by decide) (by intro e he; exact absurd he (List.not_mem_nil e))

/-- C8: the live `main()` constructs exactly one Development Environment
Descriptor per run — with mode `'development'`, renderer host `'localhost'`,
renderer port `3000`, and the remaining fields derived from the ambient
working and module directories — and the descriptor later passed to
`startRenderer` is that same unmutated value. -/
theorem env_descriptor_once_and_fixed (cwd dirname : String) :
    envsConstructed (mainLiveTrace cwd dirname) =
      [mkDevelopmentEnvironment cwd dirname] ∧
    envsPassedToRenderer (mainLiveTrace cwd dirname) =
      [mkDevelopmentEnvironment cwd dirname] ∧
    (mkDevelopmentEnvironment cwd dirname).NODE_ENV = "development" ∧
    (mkDevelopmentEnvironment cwd dirname).renderer.host = "localhost" ∧
    (mkDevelopmentEnvironment cwd dirname).renderer.port = 3000 ∧
    (mkDevelopmentEnvironment cwd dirname).cwd = cwd ∧
    (mkDevelopmentEnvironment cwd dirname).configPath = dirname ∧
    (mkDevelopmentEnvironment cwd dirname).projectPath = pathJoin dirname "../" ∧
    (mkDevelopmentEnvironment cwd dirname).distPath = pathJoin dirname "../dist" :=
  ⟨rfl, rfl, rfl, rfl, rfl, rfl, rfl, rfl, rfl⟩

/-- C10: `main()` is invoked at module load with no rejection handler
attached, so a rejection of either concurrent startup task propagates out of
the awaited `Promise.all` as an unhandled rejection, and the installed guard
terminates the process with exit status 1. -/
theorem startup_task_rejection_exits_one (hmr renderer : Except String Unit)
    (e : String) (h : hmr = Except.error e ∨ renderer = Except.error e) :
    moduleLoadOutcome hmr renderer = DevOutcome.exited 1 := by
  rcases h with h | h
  · subst h
    simp [moduleLoadOutcome, promiseAll2, applyGuard, guardHandle]
  · subst h
    cases hmr with
    | error e' => simp [moduleLoadOutcome, promiseAll2, applyGuard, guardHandle]
    | ok u => simp [moduleLoadOutcome, promiseAll2, applyGuard, guardHandle]

/-- Witness for C10: the HMR startup task rejects while the renderer task
resolves; the process exits with status 1. -/
theorem startup_task_rejection_exits_one_witness :
    moduleLoadOutcome (Except.error "port in use") (Except.ok ()) =
      DevOutcome.exited 1 :=
  startup_task_rejection_exits_one (Except.error "port in use") (Except.ok ())
    "port in use" (Or.inl rfl)
